import Mathlib

/-!
Verification of the Starlark `PythonDistribution` binding layer
(`src/pyoxidizer/src/starlark/python_distribution.rs`).

The file shallowly embeds the handle type, its lazy distribution
resolution, the lazily cached bytecode compiler, the argument
marshalling helpers, the two constructors and the capability
operations.  External collaborators (`resolve_distribution`,
the resolved distribution snapshot's methods, the packaging tool
free functions) are not part of the translated source file; they are
represented as explicit oracles: the outcome of the k-th resolver
invocation is a function of the handle fields and the invocation
index, and a resolved snapshot carries the outcomes of its own
collaborator calls.  Invocation counts of the resolver and of the
compiler factory are threaded through an explicit state so that
once-only properties can be stated.
-/

/-- Script-visible structured error record: stable machine code, human
message and a label naming the failing operation (the `RuntimeError`
struct of the embedded script engine). -/
structure RuntimeError where
  code : String
  message : String
  label : String
deriving DecidableEq, Repr

/-- Modelled from the spec: the stable machine-readable code the script
engine attaches to parameter-shape validation failures
(`INCORRECT_PARAMETER_TYPE_ERROR_CODE` of the embedded script engine,
which is an external collaborator of this core). -/
def INCORRECT_PARAMETER_TYPE_ERROR_CODE : String := "INCORRECT_PARAMETER_TYPE"

/-- Modelled from the spec: the typed embedded-interpreter
configuration object (`EmbeddedPythonConfig`, an external
collaborator).  It is opaque to this core, which only obtains it (from
the script argument or the script-level factory) and forwards it to
the executable builder. -/
structure EmbeddedPythonConfig where
  marker : Nat
deriving DecidableEq, Repr

/-- Dynamic script value, restricted to the shapes the binding layer
consumes: the no-value sentinel, strings, booleans, integers, lists,
string-keyed dictionaries, and the `PythonInterpreterConfig` capability
object. -/
inductive Value where
  | none
  | str (s : String)
  | bool (b : Bool)
  | int (n : Int)
  | list (xs : List Value)
  | dict (entries : List (Value × Value))
  | config (c : EmbeddedPythonConfig)

/-- The dynamic type tag of a script value, as returned by the script
engine's `get_type`. -/
def Value.get_type : Value → String
  | .none => "NoneType"
  | .str _ => "string"
  | .bool _ => "bool"
  | .int _ => "int"
  | .list _ => "list"
  | .dict _ => "dict"
  | .config _ => "PythonInterpreterConfig"

/-- Modelled from the spec: the script engine's value stringification
(`Value::to_string`, an external collaborator).  The binding layer only
relies on the forms of the no-value sentinel (whose string form is
"None", the fallthrough flagged in the spec) and of strings, which
stringify to themselves. -/
def Value.to_string : Value → String
  | .none => "None"
  | .str s => s
  | .bool b => if b then "True" else "False"
  | .int n => toString n
  | .list _ => "<list>"
  | .dict _ => "<dict>"
  | .config _ => "<PythonInterpreterConfig>"

/-- Modelled from the spec: the Argument Marshaller's required-string
validator (`required_str_arg` from the repository's `starlark::util`
module, which is not under `src/`): return the string or fail with a
validation error naming the parameter and the actual shape.  The
message format matches the one asserted by the in-repo test
`test_default_python_distribution_bad_arg`. -/
def required_str_arg (name : String) (v : Value) : Except RuntimeError String :=
  match v with
  | .str s => .ok s
  | other =>
    .error
      { code := INCORRECT_PARAMETER_TYPE_ERROR_CODE
        message := "function expects a string for " ++ name ++ "; got type " ++ other.get_type
        label := "expected type string; got " ++ other.get_type }

/-- Modelled from the spec: the Argument Marshaller's optional-string
validator (`optional_str_arg` from `starlark::util`, not under `src/`):
the no-value sentinel yields a typed absence, a string yields the
string, anything else is a validation failure. -/
def optional_str_arg (name : String) (v : Value) : Except RuntimeError (Option String) :=
  match v with
  | .none => .ok Option.none
  | .str s => .ok (some s)
  | other =>
    .error
      { code := INCORRECT_PARAMETER_TYPE_ERROR_CODE
        message := "function expects an optional string for " ++ name ++ "; got type "
          ++ other.get_type
        label := "expected type string; got " ++ other.get_type }

/-- Modelled from the spec: the Argument Marshaller's required-bool
validator (`required_bool_arg` from `starlark::util`, not under
`src/`). -/
def required_bool_arg (name : String) (v : Value) : Except RuntimeError Bool :=
  match v with
  | .bool b => .ok b
  | other =>
    .error
      { code := INCORRECT_PARAMETER_TYPE_ERROR_CODE
        message := "function expects a bool for " ++ name ++ "; got type " ++ other.get_type
        label := "expected type bool; got " ++ other.get_type }

/-- Modelled from the spec: the Argument Marshaller's
list-of-a-given-element-type validator (`required_list_arg` from
`starlark::util`, not under `src/`). -/
def required_list_arg (name ty : String) (v : Value) : Except RuntimeError Unit :=
  match v with
  | .list xs =>
    if xs.all (fun x => x.get_type == ty) then .ok ()
    else
      .error
        { code := INCORRECT_PARAMETER_TYPE_ERROR_CODE
          message := "function expects a list of " ++ ty ++ " for " ++ name
          label := "expected type list of " ++ ty }
  | other =>
    .error
      { code := INCORRECT_PARAMETER_TYPE_ERROR_CODE
        message := "function expects a list for " ++ name ++ "; got type " ++ other.get_type
        label := "expected type list; got " ++ other.get_type }

/-- Modelled from the spec: the Argument Marshaller's optional list
validator (`optional_list_arg` from `starlark::util`, not under
`src/`): the no-value sentinel is accepted as absence. -/
def optional_list_arg (name ty : String) (v : Value) : Except RuntimeError Unit :=
  match v with
  | .none => .ok ()
  | other => required_list_arg name ty other

/-- Modelled from the spec: the Argument Marshaller's optional
string-to-string dictionary validator (`optional_dict_arg` from
`starlark::util`, not under `src/`). -/
def optional_dict_arg (name kt vt : String) (v : Value) : Except RuntimeError Unit :=
  match v with
  | .none => .ok ()
  | .dict es =>
    if es.all (fun kv => kv.1.get_type == kt && kv.2.get_type == vt) then .ok ()
    else
      .error
        { code := INCORRECT_PARAMETER_TYPE_ERROR_CODE
          message := "function expects a dict of " ++ kt ++ " to " ++ vt ++ " for " ++ name
          label := "expected type dict of " ++ kt ++ " to " ++ vt }
  | other =>
    .error
      { code := INCORRECT_PARAMETER_TYPE_ERROR_CODE
        message := "function expects a dict for " ++ name ++ "; got type " ++ other.get_type
        label := "expected type dict; got " ++ other.get_type }

/-- Modelled from the spec: the Argument Marshaller's
instance-of-a-named-capability-type validator (`optional_type_arg`
from `starlark::util`, not under `src/`): the no-value sentinel or an
instance of the named type is accepted. -/
def optional_type_arg (name ty : String) (v : Value) : Except RuntimeError Unit :=
  if v.get_type == "NoneType" || v.get_type == ty then .ok ()
  else
    .error
      { code := INCORRECT_PARAMETER_TYPE_ERROR_CODE
        message := "function expects a " ++ ty ++ " for " ++ name ++ "; got type "
          ++ v.get_type
        label := "expected type " ++ ty ++ "; got " ++ v.get_type }

/-- The build/linkage variant of a distribution
(`py_packaging::distribution::DistributionFlavor`). -/
inductive DistributionFlavor where
  | Standalone
  | StandaloneStatic
  | StandaloneDynamic
deriving DecidableEq, Repr

/-- Where a distribution artifact is obtained from
(`py_packaging::distribution::PythonDistributionLocation`): a local
path or a URL, each with an integrity checksum carried as an opaque
string. -/
inductive PythonDistributionLocation where
  | Local (local_path : String) (sha256 : String)
  | Url (url : String) (sha256 : String)
deriving DecidableEq, Repr

/-- Closed extension-module filter enum
(`py_packaging::distribution::ExtensionModuleFilter`). -/
inductive ExtensionModuleFilter where
  | All
  | Minimal
  | NoLibraries
  | NoGPL
deriving DecidableEq, Repr

/-- Modelled from the spec: parsing an `ExtensionModuleFilter` from its
fixed set of recognized string identifiers
(`ExtensionModuleFilter::try_from`, not under `src/`).  An unrecognized
string is a validation failure whose message contains the offending
literal; no silent default is substituted. -/
def ExtensionModuleFilter.tryFrom (v : String) : Except String ExtensionModuleFilter :=
  if v = "all" then .ok .All
  else if v = "minimal" then .ok .Minimal
  else if v = "no-libraries" then .ok .NoLibraries
  else if v = "no-gpl" then .ok .NoGPL
  else .error (v ++ " is not a valid extension module filter")

/-- Modelled from the spec: the fixed set of recognized
standard-library test subtrees (`STDLIB_TEST_PACKAGES`, declared in
`py_packaging::distribution`, not under `src/`). -/
def STDLIB_TEST_PACKAGES : List String :=
  ["bsddb.test", "ctypes.test", "distutils.tests", "email.test", "idlelib.idle_test",
   "json.tests", "lib-tk.test", "lib2to3.tests", "sqlite3.test", "test", "tkinter.test",
   "unittest.test"]

/-- Whether `p` is a prefix of `s`, computed structurally on the
character lists. -/
def strStarts (s p : String) : Bool := List.isPrefixOf p.data s.data

/-- Modelled from the spec: whether the owning package is a recognized
standard-library test subtree (`is_stdlib_test_package` from
`py_packaging::distribution`, not under `src/`): the package equals a
recognized test subtree or is dotted-nested under one. -/
def is_stdlib_test_package (name : String) : Bool :=
  STDLIB_TEST_PACKAGES.any (fun p => name == p || strStarts name (p ++ "."))

/-- A pure-source module record (the data of a `PythonSourceModule`
script value). -/
structure SourceModuleData where
  name : String
  is_package : Bool
  source : List Nat
deriving DecidableEq, Repr

/-- A non-code package resource record (the data of a
`PythonPackageResource` script value). -/
structure ResourceData where
  leaf_package : String
  relative_name : String
  data : List Nat
deriving DecidableEq, Repr

/-- An extension-module record (the data of a `PythonExtensionModule`
script value). -/
structure ExtensionModuleData where
  name : String
deriving DecidableEq, Repr

/-- A discovered resource of mixed kind, as returned by the packaging
tool collaborators (`PythonResource`). -/
inductive PyResource where
  | moduleSource (m : SourceModuleData)
  | packageResource (d : ResourceData)
deriving DecidableEq, Repr

/-- The dotted path a resource is keyed by for package filtering. -/
def PyResource.dotted_name : PyResource → String
  | .moduleSource m => m.name
  | .packageResource d => d.leaf_package

/-- Modelled from the spec: whether a discovered resource's dotted
package path is one of, or nested under, the given package names
(`PythonResource::is_in_packages`, an external collaborator). -/
def PyResource.is_in_packages (r : PyResource) (packages : List String) : Bool :=
  packages.any (fun p => r.dotted_name == p || strStarts r.dotted_name (p ++ "."))

/-- Bytecode optimization level
(`python_packaging::resource::BytecodeOptimizationLevel`). -/
inductive BytecodeOptimizationLevel where
  | Zero
  | One
  | Two
deriving DecidableEq, Repr

/-- Bytecode compilation output mode
(`python_packaging::bytecode::CompileMode`). -/
inductive CompileMode where
  | Bytecode
  | PycUncheckedHash
  | PycCheckedHash
deriving DecidableEq, Repr

/-- Modelled from the spec: a bytecode compiler instance as consumed by
this core (`BytecodeCompiler`, an external collaborator): its only
consumed capability is `compile(bytes, filename, optimization, mode)`
returning bytes or an error. -/
structure Compiler where
  compile : List Nat → String → BytecodeOptimizationLevel → CompileMode →
    Except String (List Nat)

/-- Modelled from the spec: the resources-embedding policy
(`python_packaging::resource_collection::PythonResourcesPolicy`, not
under `src/`): in-memory vs filesystem-relative embedding, a closed
enum parsed from recognized string identifiers. -/
inductive PythonResourcesPolicy where
  | InMemoryOnly
  | FilesystemRelativeOnly
  | PreferInMemoryFallbackFilesystemRelative (p : String)
deriving DecidableEq, Repr

/-- Modelled from the spec: parsing a `PythonResourcesPolicy`
(`PythonResourcesPolicy::try_from`, not under `src/`): an unrecognized
value is a validation failure whose message contains the offending
literal. -/
def PythonResourcesPolicy.tryFrom (v : String) : Except String PythonResourcesPolicy :=
  if v = "in-memory-only" then .ok .InMemoryOnly
  else if v = "filesystem-relative-only" then .ok .FilesystemRelativeOnly
  else if strStarts v "prefer-in-memory-fallback-filesystem-relative:" then
    .ok (.PreferInMemoryFallbackFilesystemRelative v)
  else .error (v ++ " is not a valid resources policy")

/-- Modelled from the spec: the executable-builder capability the
snapshot's builder call produces (an external collaborator, opaque to
this core). -/
structure PythonExecutableBuilder where
  name : String
deriving DecidableEq, Repr

/-- The script-visible executable value wrapping the builder
(`struct PythonExecutable`). -/
structure PythonExecutable where
  exe : PythonExecutableBuilder
deriving DecidableEq, Repr

/-- Modelled from the spec: an immutable resolved distribution snapshot
together with the outcomes of the collaborator calls this core routes
through it (`dyn PythonDistributionTrait` plus the packaging tool free
functions that take a snapshot reference; all external to the
translated source file).  Each field records what the corresponding
collaborator call returns for given inputs. -/
structure DistSnapshot where
  source_modules : Except String (List SourceModuleData)
  resource_datas : Except String (List ResourceData)
  filter_extension_modules : ExtensionModuleFilter → Option (List (String × String)) →
    Except String (List ExtensionModuleData)
  create_bytecode_compiler : Except String Compiler
  pip_install_result : Bool → List String → List (String × String) →
    Except String (List PyResource)
  find_resources : String → Except String (List PyResource)
  read_virtualenv_result : String → Except String (List PyResource)
  setup_py_install_result : String → Bool → List (String × String) → List String →
    Except String (List PyResource)
  as_python_executable_builder : String → String → String → PythonResourcesPolicy →
    EmbeddedPythonConfig → ExtensionModuleFilter → Option (List (String × String)) →
    Bool → Bool → Bool → Except String PythonExecutableBuilder

/-- The distribution handle (`struct PythonDistribution`): flavor,
source location, destination directory, an optional lazily resolved
snapshot shared for the lifetime of the handle, and an optional
lazily created bytecode compiler. -/
structure PythonDistribution where
  flavor : DistributionFlavor
  source : PythonDistributionLocation
  dest_dir : String
  distribution : Option DistSnapshot
  compiler : Option Compiler

/-- `PythonDistribution::from_location`: a fresh handle with both lazy
slots unset. -/
def PythonDistribution.from_location (flavor : DistributionFlavor)
    (location : PythonDistributionLocation) (dest_dir : String) : PythonDistribution :=
  { flavor := flavor
    source := location
    dest_dir := dest_dir
    distribution := Option.none
    compiler := Option.none }

/-- The ambient evaluation environment consumed by this core: the
resolver oracle (outcome of the k-th `resolve_distribution` invocation
for given handle fields), the registry lookup
`default_distribution_location`, the values this core reads from the
script environment (the host and target triples, the distributions
destination directory, `CWD`, verbosity), and the outcome of the
script-level `PythonInterpreterConfig()` factory call used to default
an absent config. -/
structure Env where
  resolve_distribution : DistributionFlavor → PythonDistributionLocation → String → Nat →
    Except String DistSnapshot
  default_distribution_location : DistributionFlavor → String →
    Except String PythonDistributionLocation
  build_host_triple : String
  build_target_triple : String
  python_distributions_path : String
  cwd : String
  verbose : Bool
  python_interpreter_config : Except RuntimeError EmbeddedPythonConfig

/-- A handle together with the instrumentation needed to state
once-only properties: how many times `resolve_distribution` and
`create_bytecode_compiler` have been invoked on behalf of this
handle. -/
structure DistState where
  handle : PythonDistribution
  resolveCalls : Nat
  createCalls : Nat

/-- `PythonDistribution::ensure_distribution_resolved`: if the snapshot
is already set, return `Ok` immediately; otherwise invoke the external
resolver once, caching the snapshot on success and leaving the handle
untouched on failure. -/
def ensure_distribution_resolved (env : Env) (st : DistState) :
    Except String Unit × DistState :=
  match st.handle.distribution with
  | some _ => (.ok (), st)
  | Option.none =>
    match env.resolve_distribution st.handle.flavor st.handle.source st.handle.dest_dir
        st.resolveCalls with
    | .ok d =>
      (.ok (),
        { st with
            handle := { st.handle with distribution := some d }
            resolveCalls := st.resolveCalls + 1 })
    | .error e => (.error e, { st with resolveCalls := st.resolveCalls + 1 })

/-- The error record every operation wraps a resolution failure in. -/
def resolveErr (e : String) : RuntimeError :=
  { code := "PYOXIDIZER_BUILD", message := e, label := "resolve_distribution()" }

/-- The error record standing for the source's `unwrap()` of the
distribution slot right after a successful resolution; that branch is
unreachable because `ensure_distribution_resolved` returning `Ok`
guarantees the slot is set. -/
def unwrapNoneError : RuntimeError :=
  { code := "UNWRAP_NONE", message := "called unwrap on a None value", label := "unwrap" }

/-- `PythonDistribution::compile_bytecode`: ensure the distribution is
resolved, lazily create the bytecode compiler if the handle does not
own one yet (a creation failure is returned and leaves the slot
unset), then compile with the retained compiler. -/
def compile_bytecode (env : Env) (source : List Nat) (filename : String)
    (optimize : BytecodeOptimizationLevel) (output_mode : CompileMode) (st : DistState) :
    Except String (List Nat) × DistState :=
  match ensure_distribution_resolved env st with
  | (.error e, st1) => (.error e, st1)
  | (.ok _, st1) =>
    match st1.handle.distribution, st1.handle.compiler with
    | some dist, Option.none =>
      match dist.create_bytecode_compiler with
      | .error e => (.error e, { st1 with createCalls := st1.createCalls + 1 })
      | .ok c =>
        let st2 : DistState :=
          { st1 with
              handle := { st1.handle with compiler := some c }
              createCalls := st1.createCalls + 1 }
        (c.compile source filename optimize output_mode, st2)
    | _, some c => (c.compile source filename optimize output_mode, st1)
    | Option.none, Option.none => (.error "bytecode compiler should exist", st1)

/-- `default_python_distribution(flavor, build_target=None)`: marshal
the arguments, default the build target to the ambient triple, parse
the flavor against the three recognized identifiers (an unrecognized
literal fails with a message containing it), look up the registry
location, and construct an unresolved handle. -/
def default_python_distribution (env : Env) (flavor build_target : Value) :
    Except RuntimeError PythonDistribution :=
  match required_str_arg "flavor" flavor with
  | .error e => .error e
  | .ok flavorS =>
  match optional_str_arg "build_target" build_target with
  | .error e => .error e
  | .ok bt =>
  let build_target : String :=
    match bt with
    | some t => t
    | Option.none => env.build_target_triple
  let flavorR : Except RuntimeError DistributionFlavor :=
    if flavorS = "standalone" then .ok .Standalone
    else if flavorS = "standalone_static" then .ok .StandaloneStatic
    else if flavorS = "standalone_dynamic" then .ok .StandaloneDynamic
    else
      .error
        { code := "PYOXIDIZER_BUILD"
          message := "unknown distribution flavor " ++ flavorS
          label := "default_python_distribution()" }
  match flavorR with
  | .error e => .error e
  | .ok fl =>
  match env.default_distribution_location fl build_target with
  | .error e =>
    .error
      { code := "PYOXIDIZER_BUILD"
        message := e
        label := "default_python_distribution()" }
  | .ok location =>
    .ok (PythonDistribution.from_location fl location env.python_distributions_path)

/-- `PythonDistribution(sha256, local_path=None, url=None,
flavor="standalone")` (`PythonDistribution::from_args`): marshal the
arguments, reject the case where both `local_path` and `url` are
present with a fixed message, build the location (falling through to
the `Url` variant with the absent value's string form when neither is
present), parse the flavor against the single recognized identifier
`standalone`, and construct an unresolved handle. -/
def from_args (env : Env) (sha256 local_path url flavor : Value) :
    Except RuntimeError PythonDistribution :=
  match required_str_arg "sha256" sha256 with
  | .error e => .error e
  | .ok _ =>
  match optional_str_arg "local_path" local_path with
  | .error e => .error e
  | .ok _ =>
  match optional_str_arg "url" url with
  | .error e => .error e
  | .ok _ =>
  match required_str_arg "flavor" flavor with
  | .error e => .error e
  | .ok flavorS =>
  if local_path.get_type != "NoneType" && url.get_type != "NoneType" then
    .error
      { code := INCORRECT_PARAMETER_TYPE_ERROR_CODE
        message := "cannot define both local_path and url"
        label := "cannot define both local_path and url" }
  else
    let distribution : PythonDistributionLocation :=
      if local_path.get_type != "NoneType" then
        .Local local_path.to_string sha256.to_string
      else
        .Url url.to_string sha256.to_string
    if flavorS = "standalone" then
      .ok (PythonDistribution.from_location .Standalone distribution
        env.python_distributions_path)
    else
      .error
        { code := "PYOXIDIZER_BUILD"
          message := "invalid distribution flavor " ++ flavorS
          label := "PythonDistribution()" }

/-- `PythonDistribution.extension_modules(filter="all",
preferred_variants=None)`: marshal, parse the filter, ensure
resolution (failure → `PYOXIDIZER_BUILD`), delegate to the snapshot's
extension-module filtering and wrap its failure — also with code
`PYOXIDIZER_BUILD` — under the `extension_modules()` label. -/
def extension_modules (env : Env) (filter preferred_variants : Value) (st : DistState) :
    Except RuntimeError (List ExtensionModuleData) × DistState :=
  match required_str_arg "filter" filter with
  | .error e => (.error e, st)
  | .ok filterS =>
  match optional_dict_arg "preferred_variants" "string" "string" preferred_variants with
  | .error e => (.error e, st)
  | .ok _ =>
  match ExtensionModuleFilter.tryFrom filterS with
  | .error e =>
    (.error
      { code := INCORRECT_PARAMETER_TYPE_ERROR_CODE
        message := e
        label := "invalid policy value" }, st)
  | .ok fl =>
  let pv : Option (List (String × String)) :=
    match preferred_variants with
    | .dict es => some (es.map (fun kv => (kv.1.to_string, kv.2.to_string)))
    | _ => Option.none
  match ensure_distribution_resolved env st with
  | (.error e, st1) => (.error (resolveErr e), st1)
  | (.ok _, st1) =>
  match st1.handle.distribution with
  | Option.none => (.error unwrapNoneError, st1)
  | some dist =>
  match dist.filter_extension_modules fl pv with
  | .error e =>
    (.error
      { code := "PYOXIDIZER_BUILD"
        message := e
        label := "extension_modules()" }, st1)
  | .ok ems => (.ok ems, st1)

/-- `PythonDistribution.pip_install(args, extra_envs=None)`: marshal,
ensure resolution (failure → `PYOXIDIZER_BUILD`), invoke the external
installer in the resolved distribution's environment, wrapping its
failure with the distinct code `PIP_INSTALL_ERROR`. -/
def pip_install (env : Env) (args extra_envs : Value) (st : DistState) :
    Except RuntimeError (List PyResource) × DistState :=
  match required_list_arg "args" "string" args with
  | .error e => (.error e, st)
  | .ok _ =>
  match optional_dict_arg "extra_envs" "string" "string" extra_envs with
  | .error e => (.error e, st)
  | .ok _ =>
  let argsL : List String :=
    match args with
    | .list xs => xs.map Value.to_string
    | _ => []
  let envsL : List (String × String) :=
    match extra_envs with
    | .dict es => es.map (fun kv => (kv.1.to_string, kv.2.to_string))
    | _ => []
  match ensure_distribution_resolved env st with
  | (.error e, st1) => (.error (resolveErr e), st1)
  | (.ok _, st1) =>
  match st1.handle.distribution with
  | Option.none => (.error unwrapNoneError, st1)
  | some dist =>
  match dist.pip_install_result env.verbose argsL envsL with
  | .error e =>
    (.error
      { code := "PIP_INSTALL_ERROR"
        message := "error running pip install: " ++ e
        label := "pip_install()" }, st1)
  | .ok rs => (.ok rs, st1)

/-- `PythonDistribution.read_package_root(path, packages)`: marshal,
ensure resolution, recursively discover resources under the path
(failure → `PACKAGE_ROOT_ERROR`), then keep — in discovery order,
without sorting — exactly the resources whose dotted package path is
one of, or nested under, the given package names. -/
def read_package_root (env : Env) (path packages : Value) (st : DistState) :
    Except RuntimeError (List PyResource) × DistState :=
  match required_str_arg "path" path with
  | .error e => (.error e, st)
  | .ok pathS =>
  match required_list_arg "packages" "string" packages with
  | .error e => (.error e, st)
  | .ok _ =>
  let packagesL : List String :=
    match packages with
    | .list xs => xs.map Value.to_string
    | _ => []
  match ensure_distribution_resolved env st with
  | (.error e, st1) => (.error (resolveErr e), st1)
  | (.ok _, st1) =>
  match st1.handle.distribution with
  | Option.none => (.error unwrapNoneError, st1)
  | some dist =>
  match dist.find_resources pathS with
  | .error e =>
    (.error
      { code := "PACKAGE_ROOT_ERROR"
        message := "could not find resources: " ++ e
        label := "read_package_root()" }, st1)
  | .ok rs => (.ok (rs.filter (fun r => r.is_in_packages packagesL)), st1)

/-- `PythonDistribution.read_virtualenv(path)`: marshal, ensure
resolution, enumerate the resources of an existing virtual environment
(failure → `VIRTUALENV_ERROR`). -/
def read_virtualenv (env : Env) (path : Value) (st : DistState) :
    Except RuntimeError (List PyResource) × DistState :=
  match required_str_arg "path" path with
  | .error e => (.error e, st)
  | .ok pathS =>
  match ensure_distribution_resolved env st with
  | (.error e, st1) => (.error (resolveErr e), st1)
  | (.ok _, st1) =>
  match st1.handle.distribution with
  | Option.none => (.error unwrapNoneError, st1)
  | some dist =>
  match dist.read_virtualenv_result pathS with
  | .error e =>
    (.error
      { code := "VIRTUALENV_ERROR"
        message := "could not find resources: " ++ e
        label := "read_virtualenv()" }, st1)
  | .ok rs => (.ok rs, st1)

/-- `PythonDistribution.package_resources(include_test=false)`:
marshal, ensure resolution, enumerate the bundled non-code data
resources (failure → `PYTHON_DISTRIBUTION`), dropping every resource
whose owning package is a recognized standard-library test subtree
unless `include_test` is true. -/
def package_resources (env : Env) (include_test : Value) (st : DistState) :
    Except RuntimeError (List ResourceData) × DistState :=
  match required_bool_arg "include_test" include_test with
  | .error e => (.error e, st)
  | .ok it =>
  match ensure_distribution_resolved env st with
  | (.error e, st1) => (.error (resolveErr e), st1)
  | (.ok _, st1) =>
  match st1.handle.distribution with
  | Option.none => (.error unwrapNoneError, st1)
  | some dist =>
  match dist.resource_datas with
  | .error e =>
    (.error { code := "PYTHON_DISTRIBUTION", message := e, label := e }, st1)
  | .ok datas =>
    (.ok (datas.filterMap (fun data =>
      if !it && is_stdlib_test_package data.leaf_package then Option.none
      else some data)), st1)

/-- Modelled from the spec: whether a script-supplied path is absolute
(`Path::is_absolute` of the host platform; the embedding fixes the
POSIX convention). -/
def isAbsolutePath (p : String) : Bool := strStarts p "/"

/-- `PythonDistribution.setup_py_install(package_path, extra_envs=None,
extra_global_arguments=None)`: marshal, resolve a relative package
path against the ambient working directory, ensure resolution, invoke
the legacy build-backend install (failure → `SETUP_PY_ERROR`). -/
def setup_py_install (env : Env) (package_path extra_envs extra_global_arguments : Value)
    (st : DistState) : Except RuntimeError (List PyResource) × DistState :=
  match required_str_arg "package_path" package_path with
  | .error e => (.error e, st)
  | .ok pp =>
  match optional_dict_arg "extra_envs" "string" "string" extra_envs with
  | .error e => (.error e, st)
  | .ok _ =>
  match optional_list_arg "extra_global_arguments" "string" extra_global_arguments with
  | .error e => (.error e, st)
  | .ok _ =>
  let envsL : List (String × String) :=
    match extra_envs with
    | .dict es => es.map (fun kv => (kv.1.to_string, kv.2.to_string))
    | _ => []
  let argsL : List String :=
    match extra_global_arguments with
    | .list xs => xs.map Value.to_string
    | _ => []
  let package_path : String := if isAbsolutePath pp then pp else env.cwd ++ "/" ++ pp
  match ensure_distribution_resolved env st with
  | (.error e, st1) => (.error (resolveErr e), st1)
  | (.ok _, st1) =>
  match st1.handle.distribution with
  | Option.none => (.error unwrapNoneError, st1)
  | some dist =>
  match dist.setup_py_install_result package_path env.verbose envsL argsL with
  | .error e =>
    (.error { code := "SETUP_PY_ERROR", message := e, label := "setup_py_install()" }, st1)
  | .ok rs => (.ok rs, st1)

/-- `PythonDistribution.source_modules()`: ensure resolution, enumerate
the bundled pure-source modules (failure → `PYTHON_DISTRIBUTION`). -/
def source_modules (env : Env) (st : DistState) :
    Except RuntimeError (List SourceModuleData) × DistState :=
  match ensure_distribution_resolved env st with
  | (.error e, st1) => (.error (resolveErr e), st1)
  | (.ok _, st1) =>
  match st1.handle.distribution with
  | Option.none => (.error unwrapNoneError, st1)
  | some dist =>
  match dist.source_modules with
  | .error e =>
    (.error { code := "PYTHON_DISTRIBUTION", message := e, label := e }, st1)
  | .ok ms => (.ok ms, st1)

/-- `PythonDistribution.to_python_executable(name,
resources_policy="in-memory-only", config=None,
extension_module_filter="all", ...)`
(`as_python_executable_starlark`): marshal, parse the policy (failure
→ `PYOXIDIZER_BUILD`) and the filter eagerly before resolution,
ensure resolution (failure → `PYOXIDIZER_BUILD`), default an absent
config through the script-level factory, then delegate to the
snapshot's executable-builder construction, wrapping its failure —
also with code `PYOXIDIZER_BUILD` — under the
`to_python_executable()` label. -/
def to_python_executable (env : Env)
    (name resources_policy config extension_module_filter
      preferred_extension_module_variants include_sources include_resources
      include_test : Value) (st : DistState) :
    Except RuntimeError PythonExecutable × DistState :=
  match required_str_arg "name" name with
  | .error e => (.error e, st)
  | .ok nameS =>
  match required_str_arg "resources_policy" resources_policy with
  | .error e => (.error e, st)
  | .ok policyS =>
  match optional_type_arg "config" "PythonInterpreterConfig" config with
  | .error e => (.error e, st)
  | .ok _ =>
  match required_str_arg "extension_module_filter" extension_module_filter with
  | .error e => (.error e, st)
  | .ok filterS =>
  match optional_dict_arg "preferred_extension_module_variants" "string" "string"
      preferred_extension_module_variants with
  | .error e => (.error e, st)
  | .ok _ =>
  match required_bool_arg "include_sources" include_sources with
  | .error e => (.error e, st)
  | .ok inc_sources =>
  match required_bool_arg "include_resources" include_resources with
  | .error e => (.error e, st)
  | .ok inc_resources =>
  match required_bool_arg "include_test" include_test with
  | .error e => (.error e, st)
  | .ok inc_test =>
  match PythonResourcesPolicy.tryFrom policyS with
  | .error e =>
    (.error { code := "PYOXIDIZER_BUILD", message := e, label := "resources_policy" }, st)
  | .ok policy =>
  match ExtensionModuleFilter.tryFrom filterS with
  | .error e =>
    (.error
      { code := INCORRECT_PARAMETER_TYPE_ERROR_CODE
        message := e
        label := "invalid policy value" }, st)
  | .ok fl =>
  let pv : Option (List (String × String)) :=
    match preferred_extension_module_variants with
    | .dict es => some (es.map (fun kv => (kv.1.to_string, kv.2.to_string)))
    | _ => Option.none
  match ensure_distribution_resolved env st with
  | (.error e, st1) => (.error (resolveErr e), st1)
  | (.ok _, st1) =>
  match st1.handle.distribution with
  | Option.none => (.error unwrapNoneError, st1)
  | some dist =>
  match
    (if config.get_type == "NoneType" then env.python_interpreter_config
     else
       match config with
       | .config c => Except.ok c
       | _ => Except.error unwrapNoneError) with
  | .error e => (.error e, st1)
  | .ok cfg =>
  match dist.as_python_executable_builder env.build_host_triple env.build_target_triple
      nameS policy cfg fl pv inc_sources inc_resources inc_test with
  | .error e =>
    (.error
      { code := "PYOXIDIZER_BUILD", message := e, label := "to_python_executable()" }, st1)
  | .ok exe => (.ok { exe := exe }, st1)

/-- A capability-operation invocation on one handle, used to reason
about arbitrary sequences of operations. -/
inductive Op where
  | extensionModules (filter preferred_variants : Value)
  | sourceModules
  | packageResources (include_test : Value)
  | pipInstall (args extra_envs : Value)
  | readPackageRoot (path packages : Value)
  | readVirtualenv (path : Value)
  | setupPyInstall (package_path extra_envs extra_global_arguments : Value)
  | compileBytecode (source : List Nat) (filename : String)
      (optimize : BytecodeOptimizationLevel) (output_mode : CompileMode)

/-- The state transition performed by one operation (its script-visible
result is dropped). -/
def stepOp (env : Env) (op : Op) (st : DistState) : DistState :=
  match op with
  | .extensionModules f pv => (extension_modules env f pv st).2
  | .sourceModules => (source_modules env st).2
  | .packageResources it => (package_resources env it st).2
  | .pipInstall a e => (pip_install env a e st).2
  | .readPackageRoot p pk => (read_package_root env p pk st).2
  | .readVirtualenv p => (read_virtualenv env p st).2
  | .setupPyInstall pp ee ga => (setup_py_install env pp ee ga st).2
  | .compileBytecode s f o m => (compile_bytecode env s f o m st).2

/-- Run a sequence of operations on one handle. -/
def runOps (env : Env) (ops : List Op) (st : DistState) : DistState :=
  match ops with
  | [] => st
  | op :: rest => runOps env rest (stepOp env op st)

/-! ## Concrete instances used to exercise the theorems -/

/-- A resolved-snapshot instance whose collaborator calls all succeed
with empty results and whose compiler factory fails. -/
def emptySnapshot : DistSnapshot :=
  { source_modules := .ok []
    resource_datas := .ok []
    filter_extension_modules := fun _ _ => .ok []
    create_bytecode_compiler := .error "no compiler available"
    pip_install_result := fun _ _ _ => .ok []
    find_resources := fun _ => .ok []
    read_virtualenv_result := fun _ => .ok []
    setup_py_install_result := fun _ _ _ _ => .ok []
    as_python_executable_builder := fun _ _ n _ _ _ _ _ _ _ => .ok { name := n } }

/-- An ambient environment whose resolver always succeeds with
`emptySnapshot` and whose registry lookup always finds a URL. -/
def baseEnv : Env :=
  { resolve_distribution := fun _ _ _ _ => .ok emptySnapshot
    default_distribution_location := fun _ t =>
      .ok (.Url ("https://downloads.invalid/cpython-" ++ t ++ ".tar.zst") "0123")
    build_host_triple := "x86_64-unknown-linux-gnu"
    build_target_triple := "x86_64-unknown-linux-gnu"
    python_distributions_path := "build/python_distributions"
    cwd := "/work"
    verbose := false
    python_interpreter_config := .ok { marker := 0 } }

/-- An ambient environment whose resolver always fails. -/
def failEnv : Env :=
  { baseEnv with resolve_distribution := fun _ _ _ _ => .error "boom" }

/-- A freshly constructed handle (both lazy slots unset). -/
def baseHandle : PythonDistribution :=
  PythonDistribution.from_location .Standalone
    (.Url "https://downloads.invalid/dist.tar.zst" "abc") "build/python_distributions"

/-- A fresh handle state: unresolved, no collaborator invocations yet. -/
def unresolvedSt : DistState :=
  { handle := baseHandle, resolveCalls := 0, createCalls := 0 }

/-- The state of `unresolvedSt` after one successful resolution. -/
def resolvedSt : DistState :=
  { handle := { baseHandle with distribution := some emptySnapshot }
    resolveCalls := 1
    createCalls := 0 }

/-- A resolved snapshot whose delegated collaborator calls all fail. -/
def failingOpsSnapshot : DistSnapshot :=
  { source_modules := .error "boom"
    resource_datas := .error "boom"
    filter_extension_modules := fun _ _ => .error "boom"
    create_bytecode_compiler := .error "boom"
    pip_install_result := fun _ _ _ => .error "boom"
    find_resources := fun _ => .error "boom"
    read_virtualenv_result := fun _ => .error "boom"
    setup_py_install_result := fun _ _ _ _ => .error "boom"
    as_python_executable_builder := fun _ _ _ _ _ _ _ _ _ _ => .error "boom" }

/-- A handle state resolved to `failingOpsSnapshot`. -/
def failingOpsSt : DistState :=
  { handle := { baseHandle with distribution := some failingOpsSnapshot }
    resolveCalls := 1
    createCalls := 0 }

/-- A compiler that echoes its input bytes. -/
def idCompiler : Compiler := { compile := fun bs _ _ _ => .ok bs }

/-- A resolved snapshot whose compiler factory succeeds with
`idCompiler`. -/
def compilerSnapshot : DistSnapshot :=
  { emptySnapshot with create_bytecode_compiler := .ok idCompiler }

/-- A handle state resolved to `compilerSnapshot`, no compiler yet. -/
def compilerSt : DistState :=
  { handle := { baseHandle with distribution := some compilerSnapshot }
    resolveCalls := 1
    createCalls := 0 }

/-- The state of `compilerSt` after the one successful compiler
creation. -/
def compiledSt : DistState :=
  { handle :=
      { baseHandle with
          distribution := some compilerSnapshot
          compiler := some idCompiler }
    resolveCalls := 1
    createCalls := 1 }

/-- A bundled data resource owned by a non-test package. -/
def osResource : ResourceData :=
  { leaf_package := "os", relative_name := "cacert.pem", data := [1, 2] }

/-- A bundled data resource owned by a standard-library test
subtree. -/
def testResource : ResourceData :=
  { leaf_package := "test.support", relative_name := "data.bin", data := [3] }

/-- A resolved snapshot bundling only the non-test resource. -/
def noTestSnapshot : DistSnapshot :=
  { emptySnapshot with resource_datas := .ok [osResource] }

/-- A handle state resolved to `noTestSnapshot`. -/
def noTestSt : DistState :=
  { handle := { baseHandle with distribution := some noTestSnapshot }
    resolveCalls := 1
    createCalls := 0 }

/-- A resolved snapshot bundling one non-test and one test
resource. -/
def withTestSnapshot : DistSnapshot :=
  { emptySnapshot with resource_datas := .ok [osResource, testResource] }

/-- A handle state resolved to `withTestSnapshot`. -/
def withTestSt : DistState :=
  { handle := { baseHandle with distribution := some withTestSnapshot }
    resolveCalls := 1
    createCalls := 0 }

/-- Discovered package `bar` with an init file. -/
def barModule : PyResource :=
  .moduleSource { name := "bar", is_package := true, source := [35, 32, 98, 97, 114] }

/-- Discovered top-level module `foo`. -/
def fooModule : PyResource :=
  .moduleSource { name := "foo", is_package := false, source := [35, 32, 102, 111, 111] }

/-- Discovered top-level module `baz`, not among the kept packages. -/
def bazModule : PyResource :=
  .moduleSource { name := "baz", is_package := false, source := [35, 32, 98, 97, 122] }

/-- Discovered package `extra`, not among the kept packages. -/
def extraModule : PyResource :=
  .moduleSource { name := "extra", is_package := true, source := [35, 32, 101] }

/-- A resolved snapshot whose package-root scan of `/project` discovers
`bar`, `foo`, `baz` and `extra` in that order. -/
def scanSnapshot : DistSnapshot :=
  { emptySnapshot with
      find_resources := fun p =>
        if p = "/project" then .ok [barModule, fooModule, bazModule, extraModule]
        else .ok [] }

/-- A handle state resolved to `scanSnapshot`. -/
def scanSt : DistState :=
  { handle := { baseHandle with distribution := some scanSnapshot }
    resolveCalls := 1
    createCalls := 0 }

/-! ## Helper lemmas -/

/-- Once the distribution slot is set, `ensure_distribution_resolved`
returns `Ok` and changes nothing. -/
theorem ensure_resolved_of_some (env : Env) {st : DistState} {d : DistSnapshot}
    (hd : st.handle.distribution = some d) :
    ensure_distribution_resolved env st = (.ok (), st) := by
  unfold ensure_distribution_resolved
  rw [hd]

/-- On an unresolved handle, a failing resolver outcome is returned
with the handle untouched (only the instrumentation counter moves). -/
theorem ensure_unresolved_fail (env : Env) {st : DistState} {e : String}
    (hnone : st.handle.distribution = Option.none)
    (hres : env.resolve_distribution st.handle.flavor st.handle.source st.handle.dest_dir
      st.resolveCalls = .error e) :
    ensure_distribution_resolved env st =
      (.error e, { st with resolveCalls := st.resolveCalls + 1 }) := by
  unfold ensure_distribution_resolved
  rw [hnone, hres]

/-- On an unresolved handle, every `ensure_distribution_resolved` call
invokes the resolver, whatever the outcome. -/
theorem ensure_unresolved_calls (env : Env) {st : DistState}
    (hnone : st.handle.distribution = Option.none) :
    (ensure_distribution_resolved env st).2.resolveCalls = st.resolveCalls + 1 := by
  unfold ensure_distribution_resolved
  rw [hnone]
  cases h2 : env.resolve_distribution st.handle.flavor st.handle.source st.handle.dest_dir
      st.resolveCalls <;> simp [h2]

/-- `ensure_distribution_resolved` never touches the compiler slot or
the compiler-factory invocation count. -/
theorem ensure_preserves_compiler (env : Env) (st : DistState) :
    (ensure_distribution_resolved env st).2.handle.compiler = st.handle.compiler ∧
    (ensure_distribution_resolved env st).2.createCalls = st.createCalls := by
  unfold ensure_distribution_resolved
  split
  · exact ⟨rfl, rfl⟩
  · split <;> exact ⟨rfl, rfl⟩

/-- On a resolved handle, no operation invokes the resolver, and the
handle stays resolved to the same snapshot. -/
theorem stepOp_resolved (env : Env) (op : Op) {st : DistState} {d : DistSnapshot}
    (hd : st.handle.distribution = some d) :
    (stepOp env op st).resolveCalls = st.resolveCalls ∧
    (stepOp env op st).handle.distribution = some d := by
  cases op <;>
    simp only [stepOp, extension_modules, source_modules, package_resources, pip_install,
      read_package_root, read_virtualenv, setup_py_install, compile_bytecode,
      ensure_resolved_of_some env hd, hd] <;>
    (repeat' split) <;> simp_all

/-- Once the handle owns a compiler, no operation invokes the compiler
factory, and the compiler is retained. -/
theorem stepOp_compiler (env : Env) (op : Op) {st : DistState} {c : Compiler}
    (hc : st.handle.compiler = some c) :
    (stepOp env op st).createCalls = st.createCalls ∧
    (stepOp env op st).handle.compiler = some c := by
  have hp := ensure_preserves_compiler env st
  cases op <;>
    simp only [stepOp, extension_modules, source_modules, package_resources, pip_install,
      read_package_root, read_virtualenv, setup_py_install, compile_bytecode] <;>
    (repeat' split) <;> simp_all

/-- Over any operation sequence on a resolved handle, the resolver is
never invoked again. -/
theorem runOps_resolved (env : Env) (ops : List Op) :
    ∀ (st : DistState) (d : DistSnapshot), st.handle.distribution = some d →
      (runOps env ops st).resolveCalls = st.resolveCalls ∧
      (runOps env ops st).handle.distribution = some d := by
  induction ops with
  | nil => intro st d hd; exact ⟨rfl, hd⟩
  | cons op rest ih =>
    intro st d hd
    have h1 := stepOp_resolved env op hd
    have h2 := ih (stepOp env op st) d h1.2
    exact ⟨h2.1.trans h1.1, h2.2⟩

/-- Over any operation sequence on a handle that owns a compiler, the
compiler factory is never invoked again. -/
theorem runOps_compiler (env : Env) (ops : List Op) :
    ∀ (st : DistState) (c : Compiler), st.handle.compiler = some c →
      (runOps env ops st).createCalls = st.createCalls ∧
      (runOps env ops st).handle.compiler = some c := by
  induction ops with
  | nil => intro st c hc; exact ⟨rfl, hc⟩
  | cons op rest ih =>
    intro st c hc
    have h1 := stepOp_compiler env op hc
    have h2 := ih (stepOp env op st) c h1.2
    exact ⟨h2.1.trans h1.1, h2.2⟩

/-- On a resolved handle that already owns a compiler,
`compile_bytecode` reuses it unconditionally: no factory invocation,
no state change. -/
theorem compile_bytecode_with_compiler (env : Env) {st : DistState} {d : DistSnapshot}
    {c : Compiler} (src : List Nat) (fn : String) (opt : BytecodeOptimizationLevel)
    (mode : CompileMode) (hd : st.handle.distribution = some d)
    (hc : st.handle.compiler = some c) :
    compile_bytecode env src fn opt mode st = (c.compile src fn opt mode, st) := by
  unfold compile_bytecode
  rw [ensure_resolved_of_some env hd]
  simp [hd, hc]

/-- Dropping via `filterMap` the elements satisfying `p` is filtering
by the negation of `p`. -/
theorem filterMap_if_none_eq_filter {α : Type} (p : α → Bool) (l : List α) :
    (l.filterMap fun a => if p a then Option.none else some a) =
      l.filter fun a => !p a := by
  induction l with
  | nil => rfl
  | cons a l ih =>
    by_cases h : p a <;> simp [List.filterMap_cons, List.filter_cons, h, ih]

/-- Filtering removes an element exactly when one fails the
predicate. -/
theorem length_filter_lt_iff {α : Type} (p : α → Bool) (l : List α) :
    (l.filter p).length < l.length ↔ ∃ x ∈ l, ¬ p x = true := by
  induction l with
  | nil => simp
  | cons a l ih =>
    by_cases h : p a
    · simp [List.filter_cons, h, Nat.succ_lt_succ_iff, ih]
    · simp only [List.filter_cons, h]
      constructor
      · intro _; exact ⟨a, List.mem_cons_self a l, by simp [h]⟩
      · intro _
        exact Nat.lt_of_le_of_lt (List.length_filter_le p l) (Nat.lt_succ_self _)

/-- Stringifying a list of string values gives back the strings. -/
theorem map_to_string_map_str (l : List String) :
    (l.map Value.str).map Value.to_string = l := by
  induction l with
  | nil => rfl
  | cons a l ih => simp [ih, Value.to_string]

/-- A list of string values passes the list-of-string shape check. -/
theorem all_str_get_type (l : List String) :
    (l.map Value.str).all (fun x => x.get_type == "string") = true := by
  simp [List.all_eq_true, Value.get_type]

/-! ## Claim theorems -/

/-- C1: `ensure_distribution_resolved` is idempotent once successful.
A first successful resolution invokes the external resolver exactly
once and caches the snapshot; once the distribution slot is set, the
call returns `Ok` without invoking the resolver, and across any
sequence of capability operations on the same handle the resolver is
never invoked again. -/
theorem ensure_resolved_invoked_once_per_handle (env : Env) (st : DistState)
    (d : DistSnapshot) (ops : List Op)
    (hnone : st.handle.distribution = Option.none)
    (hok : env.resolve_distribution st.handle.flavor st.handle.source st.handle.dest_dir
      st.resolveCalls = .ok d) :
    ensure_distribution_resolved env st =
      (.ok (),
       { st with
           handle := { st.handle with distribution := some d }
           resolveCalls := st.resolveCalls + 1 }) ∧
    ensure_distribution_resolved env
        { st with
            handle := { st.handle with distribution := some d }
            resolveCalls := st.resolveCalls + 1 } =
      (.ok (),
       { st with
           handle := { st.handle with distribution := some d }
           resolveCalls := st.resolveCalls + 1 }) ∧
    (runOps env ops
        { st with
            handle := { st.handle with distribution := some d }
            resolveCalls := st.resolveCalls + 1 }).resolveCalls = st.resolveCalls + 1 := by
  refine ⟨?_, ?_, ?_⟩
  · unfold ensure_distribution_resolved
    rw [hnone, hok]
  · exact ensure_resolved_of_some env rfl
  · exact (runOps_resolved env ops _ d rfl).1

/-- C1 witness: a fresh handle in an always-succeeding environment;
after the one successful resolution, a sequence of three further
operations leaves the resolver invocation count at one. -/
theorem ensure_resolved_invoked_once_per_handle_witness :
    ensure_distribution_resolved baseEnv unresolvedSt = (.ok (), resolvedSt) ∧
    ensure_distribution_resolved baseEnv resolvedSt = (.ok (), resolvedSt) ∧
    (runOps baseEnv
        [Op.sourceModules, Op.packageResources (Value.bool true),
         Op.readVirtualenv (Value.str "/venv")] resolvedSt).resolveCalls = 1 :=
  ensure_resolved_invoked_once_per_handle baseEnv unresolvedSt emptySnapshot
    [Op.sourceModules, Op.packageResources (Value.bool true),
     Op.readVirtualenv (Value.str "/venv")] rfl rfl

/-- C2: a failed resolution is not cached: the error is returned with
the handle exactly as it was before the call (the distribution slot
still unset), and the next `ensure_distribution_resolved` call
re-attempts resolution by invoking the resolver again. -/
theorem resolution_failure_not_cached (env : Env) (st : DistState) (e : String)
    (hnone : st.handle.distribution = Option.none)
    (hfail : env.resolve_distribution st.handle.flavor st.handle.source st.handle.dest_dir
      st.resolveCalls = .error e) :
    ensure_distribution_resolved env st =
      (.error e, { st with resolveCalls := st.resolveCalls + 1 }) ∧
    (ensure_distribution_resolved env st).2.handle = st.handle ∧
    (ensure_distribution_resolved env
        { st with resolveCalls := st.resolveCalls + 1 }).2.resolveCalls =
      st.resolveCalls + 2 := by
  have h1 := ensure_unresolved_fail env hnone hfail
  refine ⟨h1, by rw [h1], ?_⟩
  exact @ensure_unresolved_calls env { st with resolveCalls := st.resolveCalls + 1 } hnone

/-- C2 witness: a fresh handle in an always-failing environment; the
failure leaves the handle untouched and the next call attempts
resolution again. -/
theorem resolution_failure_not_cached_witness :
    ensure_distribution_resolved failEnv unresolvedSt =
      (.error "boom", { unresolvedSt with resolveCalls := 1 }) ∧
    (ensure_distribution_resolved failEnv unresolvedSt).2.handle = unresolvedSt.handle ∧
    (ensure_distribution_resolved failEnv
        { unresolvedSt with resolveCalls := 1 }).2.resolveCalls = 2 :=
  resolution_failure_not_cached failEnv unresolvedSt "boom" rfl rfl

/-- C4: the explicit-location constructor with neither `local_path`
nor `url` supplied does not fail: it falls through to the `Url`
variant whose url field is the string form of the absent value, with
the checksum carried through and both lazy slots unset. -/
theorem from_args_without_location_falls_through_to_url (env : Env) (sha : String) :
    from_args env (Value.str sha) Value.none Value.none (Value.str "standalone") =
      .ok
        { flavor := .Standalone
          source := .Url "None" sha
          dest_dir := env.python_distributions_path
          distribution := Option.none
          compiler := Option.none } := by
  rfl

/-- C5: supplying both `local_path` and `url` (any pair of literal
strings, whatever the checksum and flavor literals) fails with exactly
the fixed message, before any handle is constructed. -/
theorem from_args_rejects_both_locations (env : Env) (sha lp u fl : String) :
    from_args env (Value.str sha) (Value.str lp) (Value.str u) (Value.str fl) =
      .error
        { code := INCORRECT_PARAMETER_TYPE_ERROR_CODE
          message := "cannot define both local_path and url"
          label := "cannot define both local_path and url" } := by
  rfl

/-- C3 counterexample: the claim fails for two capability operations.
On a resolved handle, a failure of the delegated
`filter_extension_modules` call is reported by `extension_modules`
with code `PYOXIDIZER_BUILD`, and a failure of the delegated
`as_python_executable_builder` call is reported by
`to_python_executable` with code `PYOXIDIZER_BUILD` — the very code a
resolution failure is reported with (last conjunct) — so the
delegated-failure code is not distinct from the resolution-failure
code for every capability operation. -/
theorem delegated_failures_share_resolution_code :
    (extension_modules baseEnv (Value.str "all") Value.none failingOpsSt).1 =
      .error
        { code := "PYOXIDIZER_BUILD", message := "boom", label := "extension_modules()" } ∧
    (to_python_executable baseEnv (Value.str "app") (Value.str "in-memory-only")
        Value.none (Value.str "all") Value.none (Value.bool true) (Value.bool false)
        (Value.bool false) failingOpsSt).1 =
      .error
        { code := "PYOXIDIZER_BUILD", message := "boom",
          label := "to_python_executable()" } ∧
    (extension_modules failEnv (Value.str "all") Value.none unresolvedSt).1 =
      .error
        { code := "PYOXIDIZER_BUILD", message := "boom",
          label := "resolve_distribution()" } := by
  exact ⟨rfl, rfl, rfl⟩

set_option maxHeartbeats 1000000 in
/-- C3 amended: on a resolved handle, delegated-collaborator failures
of `pip_install`, `setup_py_install`, `read_virtualenv`,
`read_package_root`, `package_resources` and `source_modules` are
reported with codes `PIP_INSTALL_ERROR`, `SETUP_PY_ERROR`,
`VIRTUALENV_ERROR`, `PACKAGE_ROOT_ERROR`, `PYTHON_DISTRIBUTION` and
`PYTHON_DISTRIBUTION` respectively, each distinct from the
resolution-failure code `PYOXIDIZER_BUILD`; `extension_modules` and
`to_python_executable`, however, report their delegated failures
(`filter_extension_modules` and `as_python_executable_builder`) with
the same code `PYOXIDIZER_BUILD` as resolution failures,
distinguishable only by their labels. -/
theorem operation_failure_codes_mostly_distinct (env : Env) (st st0 : DistState)
    (d : DistSnapshot) (e : String) (cfg : EmbeddedPythonConfig)
    (hd : st.handle.distribution = some d)
    (hnone : st0.handle.distribution = Option.none)
    (hres : env.resolve_distribution st0.handle.flavor st0.handle.source st0.handle.dest_dir
      st0.resolveCalls = .error e)
    (hpip : d.pip_install_result env.verbose [] [] = .error e)
    (hsetup : d.setup_py_install_result "/pkg" env.verbose [] [] = .error e)
    (hvenv : d.read_virtualenv_result "/venv" = .error e)
    (hfind : d.find_resources "/root" = .error e)
    (hdatas : d.resource_datas = .error e)
    (hsrc : d.source_modules = .error e)
    (hext : d.filter_extension_modules .All Option.none = .error e)
    (hcfg : env.python_interpreter_config = .ok cfg)
    (hexe : d.as_python_executable_builder env.build_host_triple env.build_target_triple
      "app" .InMemoryOnly cfg .All Option.none true false false = .error e) :
    (pip_install env (Value.list []) Value.none st).1 =
      .error
        { code := "PIP_INSTALL_ERROR", message := "error running pip install: " ++ e,
          label := "pip_install()" } ∧
    (setup_py_install env (Value.str "/pkg") Value.none Value.none st).1 =
      .error { code := "SETUP_PY_ERROR", message := e, label := "setup_py_install()" } ∧
    (read_virtualenv env (Value.str "/venv") st).1 =
      .error
        { code := "VIRTUALENV_ERROR", message := "could not find resources: " ++ e,
          label := "read_virtualenv()" } ∧
    (read_package_root env (Value.str "/root") (Value.list []) st).1 =
      .error
        { code := "PACKAGE_ROOT_ERROR", message := "could not find resources: " ++ e,
          label := "read_package_root()" } ∧
    (package_resources env (Value.bool false) st).1 =
      .error { code := "PYTHON_DISTRIBUTION", message := e, label := e } ∧
    (source_modules env st).1 =
      .error { code := "PYTHON_DISTRIBUTION", message := e, label := e } ∧
    (extension_modules env (Value.str "all") Value.none st).1 =
      .error { code := "PYOXIDIZER_BUILD", message := e, label := "extension_modules()" } ∧
    (to_python_executable env (Value.str "app") (Value.str "in-memory-only") Value.none
        (Value.str "all") Value.none (Value.bool true) (Value.bool false)
        (Value.bool false) st).1 =
      .error
        { code := "PYOXIDIZER_BUILD", message := e, label := "to_python_executable()" } ∧
    (pip_install env (Value.list []) Value.none st0).1 =
      .error { code := "PYOXIDIZER_BUILD", message := e, label := "resolve_distribution()" } ∧
    ("PIP_INSTALL_ERROR" ≠ "PYOXIDIZER_BUILD" ∧ "SETUP_PY_ERROR" ≠ "PYOXIDIZER_BUILD" ∧
      "VIRTUALENV_ERROR" ≠ "PYOXIDIZER_BUILD" ∧ "PACKAGE_ROOT_ERROR" ≠ "PYOXIDIZER_BUILD" ∧
      "PYTHON_DISTRIBUTION" ≠ "PYOXIDIZER_BUILD") := by
  have hok := ensure_resolved_of_some env hd
  have hbad := ensure_unresolved_fail env hnone hres
  have c1 : (("NoneType" : String) == "NoneType") = true := rfl
  refine ⟨?_, ?_, ?_, ?_, ?_, ?_, ?_, ?_, ?_,
    by decide, by decide, by decide, by decide, by decide⟩
  · simp [pip_install, required_list_arg, optional_dict_arg, hok, hd, hpip]
  · have habs : isAbsolutePath "/pkg" = true := rfl
    simp [setup_py_install, required_str_arg, optional_dict_arg, optional_list_arg,
      habs, hok, hd, hsetup]
  · simp [read_virtualenv, required_str_arg, hok, hd, hvenv]
  · simp [read_package_root, required_str_arg, required_list_arg, hok, hd, hfind]
  · simp [package_resources, required_bool_arg, hok, hd, hdatas]
  · simp [source_modules, hok, hd, hsrc]
  · simp [extension_modules, required_str_arg, optional_dict_arg,
      ExtensionModuleFilter.tryFrom, hok, hd, hext]
  · have hpol : PythonResourcesPolicy.tryFrom "in-memory-only" = .ok .InMemoryOnly := rfl
    have hfl : ExtensionModuleFilter.tryFrom "all" = .ok .All := rfl
    simp [to_python_executable, required_str_arg, optional_type_arg, optional_dict_arg,
      required_bool_arg, hpol, hfl, Value.get_type, c1, hok, hd, hcfg, hexe]
  · simp [pip_install, required_list_arg, optional_dict_arg, hbad, resolveErr]

/-- C3 amended witness: a handle resolved to a snapshot whose
delegated calls all fail with "boom", in an environment whose resolver
also fails with "boom", exercising every conjunct. -/
theorem operation_failure_codes_mostly_distinct_witness :
    (pip_install failEnv (Value.list []) Value.none failingOpsSt).1 =
      .error
        { code := "PIP_INSTALL_ERROR", message := "error running pip install: boom",
          label := "pip_install()" } ∧
    (setup_py_install failEnv (Value.str "/pkg") Value.none Value.none failingOpsSt).1 =
      .error { code := "SETUP_PY_ERROR", message := "boom", label := "setup_py_install()" } ∧
    (read_virtualenv failEnv (Value.str "/venv") failingOpsSt).1 =
      .error
        { code := "VIRTUALENV_ERROR", message := "could not find resources: boom",
          label := "read_virtualenv()" } ∧
    (read_package_root failEnv (Value.str "/root") (Value.list []) failingOpsSt).1 =
      .error
        { code := "PACKAGE_ROOT_ERROR", message := "could not find resources: boom",
          label := "read_package_root()" } ∧
    (package_resources failEnv (Value.bool false) failingOpsSt).1 =
      .error { code := "PYTHON_DISTRIBUTION", message := "boom", label := "boom" } ∧
    (source_modules failEnv failingOpsSt).1 =
      .error { code := "PYTHON_DISTRIBUTION", message := "boom", label := "boom" } ∧
    (extension_modules failEnv (Value.str "all") Value.none failingOpsSt).1 =
      .error
        { code := "PYOXIDIZER_BUILD", message := "boom", label := "extension_modules()" } ∧
    (to_python_executable failEnv (Value.str "app") (Value.str "in-memory-only")
        Value.none (Value.str "all") Value.none (Value.bool true) (Value.bool false)
        (Value.bool false) failingOpsSt).1 =
      .error
        { code := "PYOXIDIZER_BUILD", message := "boom",
          label := "to_python_executable()" } ∧
    (pip_install failEnv (Value.list []) Value.none unresolvedSt).1 =
      .error
        { code := "PYOXIDIZER_BUILD", message := "boom",
          label := "resolve_distribution()" } ∧
    ("PIP_INSTALL_ERROR" ≠ "PYOXIDIZER_BUILD" ∧ "SETUP_PY_ERROR" ≠ "PYOXIDIZER_BUILD" ∧
      "VIRTUALENV_ERROR" ≠ "PYOXIDIZER_BUILD" ∧ "PACKAGE_ROOT_ERROR" ≠ "PYOXIDIZER_BUILD" ∧
      "PYTHON_DISTRIBUTION" ≠ "PYOXIDIZER_BUILD") :=
  operation_failure_codes_mostly_distinct failEnv failingOpsSt unresolvedSt
    failingOpsSnapshot "boom" { marker := 0 } rfl rfl rfl rfl rfl rfl rfl rfl rfl rfl rfl
    rfl

/-- C6 counterexample: when the compiler factory fails, the failure is
not cached, so a second `compile_bytecode` call on the same handle
invokes `create_bytecode_compiler` a second time — refuting "invoked
at most once per handle across any number of `compile_bytecode`
calls". -/
theorem create_bytecode_compiler_retried_after_failure :
    (compile_bytecode baseEnv [] "mod.py" .Zero .Bytecode failingOpsSt).2.createCalls = 1 ∧
    ((compile_bytecode baseEnv [] "mod.py" .Zero .Bytecode
        (compile_bytecode baseEnv [] "mod.py" .Zero .Bytecode
          failingOpsSt).2).2).createCalls = 2 := by
  exact ⟨rfl, rfl⟩

/-- C6 amended: `compile_bytecode` first ensures resolution, then
constructs a compiler only when the handle owns none; a successful
construction is cached, and from then on every call — indeed any
operation sequence — reuses the cached compiler without ever invoking
`create_bytecode_compiler` again (at most one successful invocation
per handle; a failed invocation is retried on the next call). -/
theorem compile_bytecode_caches_compiler_after_success (env : Env) (st : DistState)
    (d : DistSnapshot) (c : Compiler) (src : List Nat) (fn : String)
    (opt : BytecodeOptimizationLevel) (mode : CompileMode) (ops : List Op)
    (hd : st.handle.distribution = some d)
    (hc : st.handle.compiler = Option.none)
    (hcr : d.create_bytecode_compiler = .ok c) :
    compile_bytecode env src fn opt mode st =
      (c.compile src fn opt mode,
       { st with
           handle := { st.handle with compiler := some c }
           createCalls := st.createCalls + 1 }) ∧
    compile_bytecode env src fn opt mode
        { st with
            handle := { st.handle with compiler := some c }
            createCalls := st.createCalls + 1 } =
      (c.compile src fn opt mode,
       { st with
           handle := { st.handle with compiler := some c }
           createCalls := st.createCalls + 1 }) ∧
    (runOps env ops
        { st with
            handle := { st.handle with compiler := some c }
            createCalls := st.createCalls + 1 }).createCalls = st.createCalls + 1 := by
  refine ⟨?_, ?_, ?_⟩
  · unfold compile_bytecode
    rw [ensure_resolved_of_some env hd]
    simp [hd, hc, hcr]
  · exact compile_bytecode_with_compiler env src fn opt mode hd rfl
  · exact (runOps_compiler env ops _ c rfl).1

/-- C6 amended witness: a handle resolved to a snapshot whose compiler
factory yields the echo compiler; the first call creates it, the
second call and a two-operation sequence reuse it. -/
theorem compile_bytecode_caches_compiler_after_success_witness :
    compile_bytecode baseEnv [7] "mod.py" .Zero .Bytecode compilerSt =
      (.ok [7], compiledSt) ∧
    compile_bytecode baseEnv [7] "mod.py" .Zero .Bytecode compiledSt =
      (.ok [7], compiledSt) ∧
    (runOps baseEnv
        [Op.compileBytecode [8] "other.py" .One .Bytecode, Op.sourceModules]
        compiledSt).createCalls = 1 :=
  compile_bytecode_caches_compiler_after_success baseEnv compilerSt compilerSnapshot
    idCompiler [7] "mod.py" .Zero .Bytecode
    [Op.compileBytecode [8] "other.py" .One .Bytecode, Op.sourceModules] rfl rfl rfl

/-- C7 counterexample: on a resolved handle whose snapshot bundles no
resource owned by a standard-library test subtree, the two
`package_resources` results are equal, so the `include_test=false`
list is not a strict subset of the `include_test=true` list. -/
theorem package_resources_subset_not_strict_without_test_resources :
    (package_resources baseEnv (Value.bool false) noTestSt).1 = .ok [osResource] ∧
    (package_resources baseEnv (Value.bool true) noTestSt).1 = .ok [osResource] ∧
    (package_resources baseEnv (Value.bool false) noTestSt).1 =
      (package_resources baseEnv (Value.bool true) noTestSt).1 := by
  exact ⟨rfl, rfl, rfl⟩

/-- C7 amended: `package_resources(include_test=false)` returns
exactly the `include_test=true` list with precisely the resources
owned by a recognized standard-library test subtree removed — a
sublist (order preserved, no other record changes) of no greater
length; the inclusion is strict if and only if the snapshot bundles at
least one such test resource. -/
theorem package_resources_filters_exactly_test_packages (env : Env) (st : DistState)
    (d : DistSnapshot) (datas : List ResourceData)
    (hd : st.handle.distribution = some d)
    (hr : d.resource_datas = .ok datas) :
    package_resources env (Value.bool false) st =
      (.ok (datas.filter fun x => !is_stdlib_test_package x.leaf_package), st) ∧
    package_resources env (Value.bool true) st = (.ok datas, st) ∧
    (datas.filter fun x => !is_stdlib_test_package x.leaf_package).Sublist datas ∧
    (datas.filter fun x => !is_stdlib_test_package x.leaf_package).length ≤
      datas.length ∧
    ((datas.filter fun x => !is_stdlib_test_package x.leaf_package).length <
        datas.length ↔
      ∃ x ∈ datas, is_stdlib_test_package x.leaf_package) := by
  have hok := ensure_resolved_of_some env hd
  refine ⟨?_, ?_, List.filter_sublist datas, List.length_filter_le _ datas, ?_⟩
  · simp [package_resources, required_bool_arg, hok, hd, hr, filterMap_if_none_eq_filter]
  · simp [package_resources, required_bool_arg, hok, hd, hr]
  · simpa using
      length_filter_lt_iff (fun x => !is_stdlib_test_package x.leaf_package) datas

/-- C7 amended witness: with one `os` resource and one `test.support`
resource bundled, the filtered call drops exactly the test
resource. -/
theorem package_resources_filters_exactly_test_packages_witness :
    package_resources baseEnv (Value.bool false) withTestSt =
      (.ok [osResource], withTestSt) ∧
    package_resources baseEnv (Value.bool true) withTestSt =
      (.ok [osResource, testResource], withTestSt) :=
  have h := package_resources_filters_exactly_test_packages baseEnv withTestSt
    withTestSnapshot [osResource, testResource] rfl rfl
  ⟨h.1, h.2.1⟩

/-- C8: `read_package_root(path, packages)` returns exactly the
discovered resources whose dotted package path is one of, or nested
under, the given package names — a filter of the collaborator's
discovery list, hence a sublist in discovery order with no sorting —
and every resource outside the listed packages is excluded. -/
theorem read_package_root_keeps_exactly_listed_packages (env : Env) (st : DistState)
    (d : DistSnapshot) (pathS : String) (packagesL : List String) (rs : List PyResource)
    (hd : st.handle.distribution = some d)
    (hfind : d.find_resources pathS = .ok rs) :
    read_package_root env (Value.str pathS) (Value.list (packagesL.map Value.str)) st =
      (.ok (rs.filter fun r => r.is_in_packages packagesL), st) ∧
    (rs.filter fun r => r.is_in_packages packagesL).Sublist rs := by
  have hok := ensure_resolved_of_some env hd
  refine ⟨?_, List.filter_sublist rs⟩
  have hmap : List.map (Value.to_string ∘ Value.str) packagesL = packagesL := by
    simpa [List.map_map] using map_to_string_map_str packagesL
  simp [read_package_root, required_str_arg, required_list_arg, all_str_get_type,
    hok, hd, hfind, hmap]

/-- C8 witness: the spec's scan scenario — packages `bar` and `extra`,
modules `foo` and `baz` discovered under `/project`; keeping
`["foo", "bar"]` returns exactly `bar` then `foo` in discovery
order. -/
theorem read_package_root_keeps_exactly_listed_packages_witness :
    read_package_root baseEnv (Value.str "/project")
        (Value.list (["foo", "bar"].map Value.str)) scanSt =
      (.ok [barModule, fooModule], scanSt) ∧
    ([barModule, fooModule] : List PyResource).Sublist
      [barModule, fooModule, bazModule, extraModule] :=
  read_package_root_keeps_exactly_listed_packages baseEnv scanSt scanSnapshot "/project"
    ["foo", "bar"] [barModule, fooModule, bazModule, extraModule] rfl rfl

/-- C9: an unrecognized flavor string fails both constructors and an
unrecognized filter string fails `extension_modules`, each with an
error whose message embeds the offending literal (as the stated
message equalities exhibit), with no silent default substituted and —
for the filter — without touching the handle state. -/
theorem unrecognized_flavor_or_filter_fails_with_literal (env : Env) (st : DistState)
    (v : String)
    (h1 : v ≠ "standalone") (h2 : v ≠ "standalone_static")
    (h3 : v ≠ "standalone_dynamic") (h4 : v ≠ "all") (h5 : v ≠ "minimal")
    (h6 : v ≠ "no-libraries") (h7 : v ≠ "no-gpl") :
    default_python_distribution env (Value.str v) Value.none =
      .error
        { code := "PYOXIDIZER_BUILD"
          message := "unknown distribution flavor " ++ v
          label := "default_python_distribution()" } ∧
    from_args env (Value.str "cafe") Value.none Value.none (Value.str v) =
      .error
        { code := "PYOXIDIZER_BUILD"
          message := "invalid distribution flavor " ++ v
          label := "PythonDistribution()" } ∧
    extension_modules env (Value.str v) Value.none st =
      (.error
        { code := INCORRECT_PARAMETER_TYPE_ERROR_CODE
          message := v ++ " is not a valid extension module filter"
          label := "invalid policy value" }, st) := by
  have e1 : (("NoneType" : String) != "NoneType") = false := rfl
  refine ⟨?_, ?_, ?_⟩
  · simp [default_python_distribution, required_str_arg, optional_str_arg, h1, h2, h3]
  · simp [from_args, required_str_arg, optional_str_arg, Value.get_type, e1, h1]
  · simp [extension_modules, required_str_arg, optional_dict_arg,
      ExtensionModuleFilter.tryFrom, h4, h5, h6, h7]

/-- C9 witness at the unrecognized literal "fancy". -/
theorem unrecognized_flavor_or_filter_fails_with_literal_witness :
    default_python_distribution baseEnv (Value.str "fancy") Value.none =
      .error
        { code := "PYOXIDIZER_BUILD"
          message := "unknown distribution flavor fancy"
          label := "default_python_distribution()" } ∧
    from_args baseEnv (Value.str "cafe") Value.none Value.none (Value.str "fancy") =
      .error
        { code := "PYOXIDIZER_BUILD"
          message := "invalid distribution flavor fancy"
          label := "PythonDistribution()" } ∧
    extension_modules baseEnv (Value.str "fancy") Value.none unresolvedSt =
      (.error
        { code := INCORRECT_PARAMETER_TYPE_ERROR_CODE
          message := "fancy is not a valid extension module filter"
          label := "invalid policy value" }, unresolvedSt) :=
  unrecognized_flavor_or_filter_fails_with_literal baseEnv unresolvedSt "fancy"
    (by decide) (by decide) (by decide) (by decide) (by decide) (by decide) (by decide)

/-- C10: the explicit-location constructor recognizes only the flavor
`standalone`: the strings `standalone_static` and
`standalone_dynamic` — both accepted by
`default_python_distribution`, as the last two conjuncts show — fail
it with an "invalid distribution flavor" error. -/
theorem explicit_constructor_accepts_only_standalone (env : Env)
    (loc_s loc_d : PythonDistributionLocation)
    (hs : env.default_distribution_location .StandaloneStatic env.build_target_triple =
      .ok loc_s)
    (hdyn : env.default_distribution_location .StandaloneDynamic env.build_target_triple =
      .ok loc_d) :
    from_args env (Value.str "cafe") Value.none Value.none
        (Value.str "standalone_static") =
      .error
        { code := "PYOXIDIZER_BUILD"
          message := "invalid distribution flavor standalone_static"
          label := "PythonDistribution()" } ∧
    from_args env (Value.str "cafe") Value.none Value.none
        (Value.str "standalone_dynamic") =
      .error
        { code := "PYOXIDIZER_BUILD"
          message := "invalid distribution flavor standalone_dynamic"
          label := "PythonDistribution()" } ∧
    default_python_distribution env (Value.str "standalone_static") Value.none =
      .ok (PythonDistribution.from_location .StandaloneStatic loc_s
        env.python_distributions_path) ∧
    default_python_distribution env (Value.str "standalone_dynamic") Value.none =
      .ok (PythonDistribution.from_location .StandaloneDynamic loc_d
        env.python_distributions_path) := by
  refine ⟨rfl, rfl, ?_, ?_⟩
  · simp [default_python_distribution, required_str_arg, optional_str_arg,
      (show ("standalone_static" : String) ≠ "standalone" by decide), hs]
  · simp [default_python_distribution, required_str_arg, optional_str_arg,
      (show ("standalone_dynamic" : String) ≠ "standalone" by decide),
      (show ("standalone_dynamic" : String) ≠ "standalone_static" by decide), hdyn]

/-- C10 witness in the registry-backed environment. -/
theorem explicit_constructor_accepts_only_standalone_witness :
    from_args baseEnv (Value.str "cafe") Value.none Value.none
        (Value.str "standalone_static") =
      .error
        { code := "PYOXIDIZER_BUILD"
          message := "invalid distribution flavor standalone_static"
          label := "PythonDistribution()" } ∧
    from_args baseEnv (Value.str "cafe") Value.none Value.none
        (Value.str "standalone_dynamic") =
      .error
        { code := "PYOXIDIZER_BUILD"
          message := "invalid distribution flavor standalone_dynamic"
          label := "PythonDistribution()" } ∧
    default_python_distribution baseEnv (Value.str "standalone_static") Value.none =
      .ok (PythonDistribution.from_location .StandaloneStatic
        (.Url "https://downloads.invalid/cpython-x86_64-unknown-linux-gnu.tar.zst" "0123")
        "build/python_distributions") ∧
    default_python_distribution baseEnv (Value.str "standalone_dynamic") Value.none =
      .ok (PythonDistribution.from_location .StandaloneDynamic
        (.Url "https://downloads.invalid/cpython-x86_64-unknown-linux-gnu.tar.zst" "0123")
        "build/python_distributions") :=
  explicit_constructor_accepts_only_standalone baseEnv
    (.Url "https://downloads.invalid/cpython-x86_64-unknown-linux-gnu.tar.zst" "0123")
    (.Url "https://downloads.invalid/cpython-x86_64-unknown-linux-gnu.tar.zst" "0123")
    rfl rfl
